import Mathlib

/-
  Verification development for the WebMast browser extension control plane.

  The definitions below are a shallow embedding of the TypeScript sources:
  - src/src/background.ts        (control plane: engine lifecycle requests,
                                  streaming port map, summarization queue,
                                  multi-tab query orchestration)
  - src/unnamed/part_001         (offscreen inference plane: initEngine,
                                  chatCompletion, chatCompletionStream,
                                  summarizePage, active-request table)

  Chrome storage is modelled as reliable in-memory association lists, the
  inference engine as an oracle parameter, and asynchronous completions as
  explicit outcome parameters.  Each definition carries a comment naming the
  source function it embeds.
-/

-- ==================== generic association-list helpers ====================

/-- First-match lookup in an association list (models `Map.get`). -/
def lookupAssoc {β : Type} (k : String) : List (String × β) → Option β
  | [] => none
  | q :: t => if q.1 == k then some q.2 else lookupAssoc k t

/-- Keyed insert-or-replace (models `Map.set` / `chrome.storage.local.set`). -/
def setAssoc {β : Type} (k : String) (v : β) (l : List (String × β)) : List (String × β) :=
  (k, v) :: l.filter (fun q => q.1 != k)

/-- Keyed removal (models `Map.delete` / `chrome.storage.local.remove`). -/
def eraseKey {β : Type} (k : String) (l : List (String × β)) : List (String × β) :=
  l.filter (fun q => q.1 != k)

/-- Number of entries stored under a key. -/
def countKey {β : Type} (k : String) (l : List (String × β)) : Nat :=
  (l.filter (fun q => q.1 == k)).length

-- ==================== JS string helpers ====================

/-- Membership in the JavaScript `\s` / `trim` whitespace class. -/
def isJsSpace (c : Char) : Bool :=
  c == ' ' || c == '\t' || c == '\n' || c == '\r' ||
  c.toNat == 11 || c.toNat == 12 || c.toNat == 0xa0 || c.toNat == 0x1680 ||
  (decide (0x2000 ≤ c.toNat) && decide (c.toNat ≤ 0x200a)) ||
  c.toNat == 0x2028 || c.toNat == 0x2029 || c.toNat == 0x202f ||
  c.toNat == 0x205f || c.toNat == 0x3000 || c.toNat == 0xfeff

/-- `String.prototype.trim` on a character list. -/
def jsTrimList (s : List Char) : List Char :=
  ((s.dropWhile isJsSpace).reverse.dropWhile isJsSpace).reverse

/-- `trim` at the `String` level. -/
def jsTrimStr (s : String) : String :=
  String.mk (jsTrimList s.data)

/-- `String.prototype.toLowerCase` (ASCII-adequate for the strings involved). -/
def toLowerStr (s : String) : String :=
  String.mk (s.data.map Char.toLower)

/-- Substring test on character lists; `subList nd hay` is `hay.includes(nd)`. -/
def subList (nd : List Char) : List Char → Bool
  | [] => nd.isEmpty
  | c :: t => nd.isPrefixOf (c :: t) || subList nd t

/-- `String.prototype.includes`. -/
def strIncludes (hay nd : String) : Bool :=
  subList nd.data hay.data

-- ==================== parseSummaryResponse (background.ts 229-251) ====================

/-- Try each candidate in order, returning the first success (regex backtracking). -/
def firstSome {α β : Type} (f : α → Option β) : List α → Option β
  | [] => none
  | a :: t =>
    match f a with
    | some b => some b
    | none => firstSome f t

/-- Consume a literal case-insensitively (the literal is given lowercased). -/
def matchLitCI : List Char → List Char → Option (List Char)
  | [], s => some s
  | _ :: _, [] => none
  | l :: ls, c :: cs => if c.toLower == l then matchLitCI ls cs else none

/-- The suffixes reachable by `\*{0,2}` at the current position, greediest first. -/
def starChoices : List Char → List (List Char)
  | '*' :: '*' :: t => [t, '*' :: t, '*' :: '*' :: t]
  | '*' :: t => [t, '*' :: t]
  | s => [s]

/-- One anchored attempt of `\*{0,2}sufficient\*{0,2}:\s*(yes|no)`;
returns the captured flag. -/
def attemptSuff (s : List Char) : Option Bool :=
  firstSome (fun s1 =>
    match matchLitCI ("sufficient".data) s1 with
    | none => none
    | some s2 =>
      firstSome (fun s3 =>
        match matchLitCI [':'] s3 with
        | none => none
        | some s4 =>
          let s5 := s4.dropWhile isJsSpace
          match matchLitCI ("yes".data) s5 with
          | some _ => some true
          | none =>
            match matchLitCI ("no".data) s5 with
            | some _ => some false
            | none => none) (starChoices s2)) (starChoices s)

/-- Leftmost match of the `sufficient` regex over the whole string. -/
def findSuff : List Char → Option Bool
  | [] => none
  | c :: t =>
    match attemptSuff (c :: t) with
    | some b => some b
    | none => findSuff t

/-- One anchored attempt of `\*{0,2}answer\*{0,2}:\s*([\s\S]*)`;
returns the capture (everything after the colon and following whitespace). -/
def attemptAns (s : List Char) : Option (List Char) :=
  firstSome (fun s1 =>
    match matchLitCI ("answer".data) s1 with
    | none => none
    | some s2 =>
      firstSome (fun s3 =>
        match matchLitCI [':'] s3 with
        | none => none
        | some s4 => some (s4.dropWhile isJsSpace)) (starChoices s2)) (starChoices s)

/-- Leftmost match of the `answer` regex over the whole string. -/
def findAns : List Char → Option (List Char)
  | [] => none
  | c :: t =>
    match attemptAns (c :: t) with
    | some r => some r
    | none => findAns t

/-- `answer.replace(/^\*+|\*+$/g, "")`. -/
def stripStarsEnds (s : List Char) : List Char :=
  ((s.dropWhile (fun c => c == '*')).reverse.dropWhile (fun c => c == '*')).reverse

/-- Result record of `parseSummaryResponse`. -/
structure SummaryParseResult where
  sufficient : Bool
  answer : String
deriving DecidableEq, Repr

/-- `parseSummaryResponse` (background.ts 229-251): lowercase the input, look
for a `sufficient: yes|no` token, look for an `answer:` token on the original
string; when an answer capture exists, trim it and strip surrounding
asterisks; when neither token exists, return the whole trimmed reply marked
sufficient. -/
def parseSummaryResponse (response : String) : SummaryParseResult :=
  let normalized := response.data.map Char.toLower
  let sufficientMatch := findSuff normalized
  let hasSufficient := sufficientMatch.isSome
  let isSufficient := sufficientMatch.getD false
  match findAns response.data with
  | some cap =>
    let a1 := jsTrimList cap
    let a2 := jsTrimList (stripStarsEnds a1)
    { sufficient := isSufficient, answer := String.mk a2 }
  | none =>
    if !hasSufficient then
      { sufficient := true, answer := String.mk (jsTrimList response.data) }
    else
      { sufficient := isSufficient, answer := "" }

-- ==================== multi-tab query orchestrator (background.ts 212-409) ====================

/-- A chat message as passed to the engine. -/
structure ChatMsg where
  role : String
  content : String
deriving DecidableEq, Repr

/-- Per-tab input of `processMultiTabQuery` (background.ts 214-220). -/
structure TabContentInfo where
  title : String
  url : String
  content : String
  cachedSummary : Option String
  hasCachedSummary : Bool
deriving DecidableEq, Repr

/-- Result record of `processMultiTabQuery` (background.ts 222-226). -/
structure MultiTabQueryResult where
  success : Bool
  finalMessages : Option (List ChatMsg)
  error : Option String
deriving DecidableEq, Repr

/-- Phase-1 per-tab record (background.ts 318-323). -/
structure CompressedTab where
  title : String
  url : String
  compressed : String
  isRelevant : Bool
deriving DecidableEq, Repr

/-- The engine seen through `silentChat` (background.ts 254-271): a one-shot
completion that either yields content or fails. -/
abbrev ChatOracle := List ChatMsg → Except String String

/-- `CONFIG.maxContentLength` (background.ts 71). -/
def maxContentLength : Nat := 8000

/-- `CONFIG.minContentLength` (background.ts 72). -/
def minContentLength : Nat := 100

/-- System prompt of `answerFromContent` (background.ts 274-287). -/
def answerSysPrompt : String :=
  "Answer the question based on the provided content. Format: Concise bullet points. If the content doesn\x27t contain relevant information, say \x27No relevant information\x27. No conversational filler."

/-- Messages built by `answerFromContent` (background.ts 274-287). -/
def answerFromContentMsgs (content question : String) : List ChatMsg :=
  [ { role := "system", content := answerSysPrompt },
    { role := "user",
      content := "CONTENT: " ++ content.take maxContentLength ++ "\nQUESTION: " ++ question ++ "\nANSWER:" } ]

/-- Strict-format system prompt used on the cached-summary path
(background.ts 336-345). -/
def summarySysPrompt : String :=
  "Answer the question based on the summary. You MUST use this EXACT format (no markdown, no asterisks):\nSUFFICIENT: yes\nANSWER: your answer\n\nOR if info not found:\nSUFFICIENT: no\nANSWER: N/A\n\nBe concise. No extra text."

/-- Messages sent on the cached-summary path (background.ts 336-345). -/
def summaryQueryMsgs (tab : TabContentInfo) (userMessage : String) : List ChatMsg :=
  [ { role := "system", content := summarySysPrompt },
    { role := "user",
      content := "SUMMARY: " ++ tab.cachedSummary.getD "" ++ "\n\nQUESTION: " ++ userMessage } ]

/-- Truthiness of `tabInfo.hasCachedSummary && tabInfo.cachedSummary`
(background.ts 332): the summary string must be present and non-empty. -/
def hasUsableCachedSummary (tab : TabContentInfo) : Bool :=
  tab.hasCachedSummary &&
    (match tab.cachedSummary with
     | some s => s != ""
     | none => false)

/-- Relevance check used on the cached-summary sufficient branch
(background.ts 353-355). -/
def relevantCheckFull (compressed : String) : Bool :=
  !(strIncludes (toLowerStr compressed) "no relevant information") &&
  (toLowerStr compressed != "n/a") &&
  (jsTrimStr compressed != "")

/-- Relevance check used on the fallback and direct branches
(background.ts 359 and 371). -/
def relevantCheckContains (compressed : String) : Bool :=
  !(strIncludes (toLowerStr compressed) "no relevant information")

/-- Body of the Phase-1 loop of `processMultiTabQuery` (background.ts 325-385).
Returns the per-tab record together with the engine calls it made. -/
def phase1CompressTab (o : ChatOracle) (tab : TabContentInfo) (userMessage : String) :
    CompressedTab × List (List ChatMsg) :=
  if hasUsableCachedSummary tab then
    let msgs := summaryQueryMsgs tab userMessage
    match o msgs with
    | Except.error _ =>
      ({ title := tab.title, url := tab.url,
         compressed := "Error processing this tab", isRelevant := false }, [msgs])
    | Except.ok summaryResponse =>
      let parsedResult := parseSummaryResponse summaryResponse
      if parsedResult.sufficient then
        ({ title := tab.title, url := tab.url,
           compressed := parsedResult.answer,
           isRelevant := relevantCheckFull parsedResult.answer }, [msgs])
      else
        let msgs2 := answerFromContentMsgs tab.content userMessage
        match o msgs2 with
        | Except.ok c =>
          ({ title := tab.title, url := tab.url,
             compressed := c, isRelevant := relevantCheckContains c }, [msgs, msgs2])
        | Except.error _ =>
          ({ title := tab.title, url := tab.url,
             compressed := "Error processing this tab", isRelevant := false }, [msgs, msgs2])
  else
    let msgs := answerFromContentMsgs tab.content userMessage
    match o msgs with
    | Except.ok c =>
      ({ title := tab.title, url := tab.url,
         compressed := c, isRelevant := relevantCheckContains c }, [msgs])
    | Except.error _ =>
      ({ title := tab.title, url := tab.url,
         compressed := "Error processing this tab", isRelevant := false }, [msgs])

/-- `Array.prototype.join(sep)` on a list of strings. -/
def joinWith (sep : String) : List String → String
  | [] => ""
  | x :: xs => xs.foldl (fun acc y => acc ++ sep ++ y) x

/-- Fast-path per-tab block (background.ts 297-301). -/
def tabBlockRaw (i : Nat) (t : TabContentInfo) : String :=
  "=== Tab " ++ toString (i + 1) ++ ": " ++ t.title ++ " ===\nURL: " ++ t.url ++
  "\n\n" ++ t.content ++ "\n\n"

/-- Phase-2 per-tab block (background.ts 391-395). -/
def tabBlockCompressed (i : Nat) (t : CompressedTab) : String :=
  "=== Tab " ++ toString (i + 1) ++ ": " ++ t.title ++ " ===\nURL: " ++ t.url ++
  "\nRelevant Information: " ++ t.compressed ++ "\n"

/-- `processMultiTabQuery` (background.ts 290-409).  Returns the result
together with every engine (silentChat) call made along the way. -/
def processMultiTabQuery (o : ChatOracle) (allTabContents : List TabContentInfo)
    (userMessage : String) : MultiTabQueryResult × List (List ChatMsg) :=
  if allTabContents.length ≤ 1 then
    let pageContext := joinWith "\n" (allTabContents.enum.map (fun p => tabBlockRaw p.1 p.2))
    ({ success := true,
       finalMessages := some
         [ { role := "system",
             content := "You are a helpful assistant. Here is the content of the browser tab:\n\n"
               ++ pageContext ++ "\n\nPlease answer questions about this webpage." },
           { role := "user", content := userMessage } ],
       error := none }, [])
  else
    let step := allTabContents.map (fun tab => phase1CompressTab o tab userMessage)
    let compressedTabContents := step.map (fun r => r.1)
    let calls := (step.map (fun r => r.2)).flatten
    let relevantTabs := compressedTabContents.filter (fun t => t.isRelevant)
    let combinedContext := joinWith "\n" (relevantTabs.enum.map (fun p => tabBlockCompressed p.1 p.2))
    let sysContent :=
      if relevantTabs.length > 0 then
        "You are a helpful assistant. The user has " ++ toString allTabContents.length ++
        " browser tabs open. Below is the relevant information extracted from " ++
        toString relevantTabs.length ++ " relevant tabs:\n\n" ++ combinedContext ++
        "\n\nPlease provide a comprehensive answer."
      else
        "You are a helpful assistant. The user has " ++ toString allTabContents.length ++
        " browser tabs open, but none contain relevant information. Please let the user know."
    ({ success := true,
       finalMessages := some
         [ { role := "system", content := sysContent },
           { role := "user", content := userMessage } ],
       error := none }, calls)

/-- `PROCESS_MULTI_TAB_QUERY` message handler (background.ts 628-641): fail
immediately when the engine is not ready, otherwise run the orchestrator. -/
def handleProcessMultiTabQuery (offscreenEngineReady : Bool) (o : ChatOracle)
    (tabContents : List TabContentInfo) (userMessage : String) :
    MultiTabQueryResult × List (List ChatMsg) :=
  if !offscreenEngineReady then
    ({ success := false, finalMessages := none, error := some "Engine not ready" }, [])
  else
    processMultiTabQuery o tabContents userMessage

-- ==================== summarization queue (background.ts 411-501) ====================

/-- `PendingPageData` (background.ts 17-22). -/
structure PendingPageData where
  url : String
  title : String
  content : String
  timestamp : Nat
deriving DecidableEq, Repr

/-- `SummaryData` (background.ts 24-30). -/
structure SummaryData where
  url : String
  title : String
  summary : String
  timestamp : Nat
  contentLength : Nat
deriving DecidableEq, Repr

/-- Background state touched by the summarization pipeline: the in-memory
queue and flags plus the persisted pending-page and summary-cache stores
(chrome.storage modelled as reliable keyed stores). -/
structure BgQueueState where
  summarizationQueue : List String
  pendingPages : List (String × PendingPageData)
  summaryCache : List (String × SummaryData)
  isSummarizing : Bool
  offscreenEngineReady : Bool
deriving DecidableEq, Repr

/-- Possible settlements of the `SUMMARIZE_PAGE` round trip in
`processSummarizationQueue` (background.ts 438-471): a response with a truthy
summary string, a response with a truthy error, any other response shape
(including a falsy summary), or a raised exception. -/
inductive SummarizeResp
  | withSummary (summary : String)
  | withError (e : String)
  | unexpected
  | raised (e : String)
deriving DecidableEq, Repr

/-- The offscreen summarizer seen from the queue: url, title and truncated
content to a settlement. -/
abbrev SummarizeOracle := String → String → String → SummarizeResp

/-- Body of the `while` loop of `processSummarizationQueue`
(background.ts 420-472), one recursive step per shifted URL.  Also returns
the list of URLs for which the engine was actually invoked. -/
def processQueueItems (orac : SummarizeOracle) (now : Nat) :
    List String → BgQueueState → BgQueueState × List String
  | [], s => (s, [])
  | url :: rest, s =>
    match lookupAssoc url s.pendingPages with
    | none => processQueueItems orac now rest s
    | some pageData =>
      match lookupAssoc url s.summaryCache with
      | some _ =>
        processQueueItems orac now rest
          { s with pendingPages := eraseKey url s.pendingPages }
      | none =>
        let s2 :=
          match orac pageData.url pageData.title (pageData.content.take maxContentLength) with
          | SummarizeResp.withSummary sum =>
            let entry : SummaryData :=
              { url := pageData.url, title := pageData.title, summary := sum,
                timestamp := now, contentLength := pageData.content.length }
            let s1 := { s with summaryCache := setAssoc pageData.url entry s.summaryCache }
            { s1 with pendingPages := eraseKey url s1.pendingPages }
          | SummarizeResp.withError _ =>
            { s with pendingPages := eraseKey url s.pendingPages }
          | SummarizeResp.unexpected =>
            { s with pendingPages := eraseKey url s.pendingPages }
          | SummarizeResp.raised _ =>
            { s with pendingPages := eraseKey url s.pendingPages }
        let r := processQueueItems orac now rest s2
        (r.1, url :: r.2)

/-- `processSummarizationQueue` (background.ts 413-475): guarded by the
re-entrancy flag, queue non-emptiness and engine readiness; drains the whole
queue, then clears the flag. -/
def processSummarizationQueue (orac : SummarizeOracle) (now : Nat)
    (s : BgQueueState) : BgQueueState × List String :=
  if s.isSummarizing || s.summarizationQueue.isEmpty || !s.offscreenEngineReady then
    (s, [])
  else
    let s1 := { s with isSummarizing := true, summarizationQueue := [] }
    let r := processQueueItems orac now s.summarizationQueue s1
    ({ r.1 with isSummarizing := false }, r.2)

/-- `queuePageForSummarization` (background.ts 477-501), the page-observed
notification: ignore when a summary is cached, otherwise persist the pending
page and enqueue the URL if not already queued.  (The trailing kick of the
consumer loop is composed explicitly in the theorems.) -/
def queuePageForSummarization (now : Nat) (s : BgQueueState)
    (url title content : String) : BgQueueState :=
  match lookupAssoc url s.summaryCache with
  | some _ => s
  | none =>
    let pg : PendingPageData := { url := url, title := title, content := content, timestamp := now }
    let s1 := { s with pendingPages := setAssoc url pg s.pendingPages }
    if s1.summarizationQueue.contains url then s1
    else { s1 with summarizationQueue := s1.summarizationQueue ++ [url] }

-- ==================== streaming multiplexer (background.ts 86-87, 532-543, 650-712) ====================

/-- State owned by the streaming multiplexer: the `streamPorts` map from
requestId to port, plus the set of ports whose connection has closed. -/
structure MuxState where
  ports : List (String × Nat)
  closed : List Nat
deriving DecidableEq, Repr

/-- Events relevant to `streamPorts`: registration at `CHAT_STREAM_START`
(background.ts 675), a `STREAM_CHUNK` arrival (background.ts 532-543), and a
port disconnect (background.ts 697-710). -/
inductive MuxEvent
  | streamStart (rid : String) (pid : Nat)
  | chunkMsg (rid : String) (chunk : Option String) (done : Bool) (err : Option String)
  | disconnect (pid : Nat)
deriving DecidableEq, Repr

/-- Observable actions of the multiplexer: forwarding a chunk over a port, or
sending `ABORT_REQUEST` for a requestId. -/
inductive MuxOut
  | forwardChunk (pid : Nat) (rid : String)
  | abortReq (rid : String)
deriving DecidableEq, Repr

/-- One event step of the multiplexer, mirroring the three handlers. -/
def muxStep (s : MuxState) (e : MuxEvent) : MuxState × List MuxOut :=
  match e with
  | MuxEvent.streamStart rid pid =>
    ({ s with ports := setAssoc rid pid s.ports }, [])
  | MuxEvent.chunkMsg rid _ done err =>
    match lookupAssoc rid s.ports with
    | some pid =>
      if done || err.isSome then
        ({ s with ports := eraseKey rid s.ports }, [MuxOut.forwardChunk pid rid])
      else
        (s, [MuxOut.forwardChunk pid rid])
    | none => (s, [])
  | MuxEvent.disconnect pid =>
    ({ ports := s.ports.filter (fun q => q.2 != pid), closed := pid :: s.closed },
     (s.ports.filter (fun q => q.2 == pid)).map (fun q => MuxOut.abortReq q.1))

/-- Run a sequence of events, accumulating outputs. -/
def runMux (s : MuxState) : List MuxEvent → MuxState × List MuxOut
  | [] => (s, [])
  | e :: es =>
    let r := muxStep s e
    let r2 := runMux r.1 es
    (r2.1, r.2 ++ r2.2)

/-- A trace is valid when every stream starts on a still-open connection. -/
def validEventsB (s : MuxState) : List MuxEvent → Bool
  | [] => true
  | e :: es =>
    (match e with
     | MuxEvent.streamStart _ pid => !(s.closed.contains pid)
     | _ => true) && validEventsB (muxStep s e).1 es

/-- No forwarded chunk ever targets a port already closed at that time. -/
def noClosedForwardB (s : MuxState) : List MuxEvent → Bool
  | [] => true
  | e :: es =>
    ((muxStep s e).2.all (fun o =>
      match o with
      | MuxOut.forwardChunk pid _ => !(s.closed.contains pid)
      | MuxOut.abortReq _ => true)) && noClosedForwardB (muxStep s e).1 es

/-- Invariant: every registered forwarding target is still open. -/
def muxInvariant (s : MuxState) : Prop :=
  ∀ q ∈ s.ports, q.2 ∉ s.closed

/-- A completed stream: registration, `n` data chunks, one terminal done. -/
def mkStreamBlock (rid : String) (pid n : Nat) : List MuxEvent :=
  MuxEvent.streamStart rid pid ::
    (List.replicate n (MuxEvent.chunkMsg rid (some "x") false none) ++
      [MuxEvent.chunkMsg rid none true none])

/-- Concatenation of completed streams. -/
def mkBlocks (bs : List (String × Nat × Nat)) : List MuxEvent :=
  (bs.map (fun b => mkStreamBlock b.1 b.2.1 b.2.2)).flatten

-- ==================== offscreen inference plane (src/unnamed/part_001) ====================

/-- Offscreen document state (part_001 19-25): the engine handle, the
init flag, readiness, the current model id, and the active-request table
mapping requestId to its aborted flag. -/
structure OffState where
  engineLoaded : Bool
  isEngineInitializing : Bool
  engineReady : Bool
  currentModelId : String
  activeRequests : List (String × Bool)
deriving DecidableEq, Repr

/-- Payload of a `STREAM_CHUNK` message (background.ts 32-38). -/
structure StreamMsg where
  requestId : String
  chunk : Option String
  done : Bool
  error : Option String
deriving DecidableEq, Repr

/-- What `initEngine` decides to do after its synchronous checks. -/
inductive InitDecision
  | ready
  | initializing
  | startBuild
deriving DecidableEq, Repr

/-- Guard `engine && currentModelId === modelId && engineReady`
(part_001 31). -/
def initGuardReady (s : OffState) (m : String) : Bool :=
  s.engineLoaded && (s.currentModelId == m) && s.engineReady

/-- Guard `isEngineInitializing && currentModelId === modelId`
(part_001 37). -/
def initGuardIniting (s : OffState) (m : String) : Bool :=
  s.isEngineInitializing && (s.currentModelId == m)

/-- Guard `engine && currentModelId !== modelId` (part_001 43). -/
def initNeedsSwap (s : OffState) (m : String) : Bool :=
  s.engineLoaded && (s.currentModelId != m)

/-- Model-swap teardown inside `initEngine` (part_001 43-65): every active
request object has `aborted` set, then the table is cleared (discarding those
marks), the old engine is unloaded and nulled out, readiness drops.  No
message is sent to any stream sink on this path. -/
def swapTeardown (s : OffState) : OffState :=
  let _marked := s.activeRequests.map (fun q => (q.1, true))
  { s with engineLoaded := false, engineReady := false,
           activeRequests := ([] : List (String × Bool)) }

/-- The portion of `initEngine(modelId)` (part_001 29-69) that runs before
`CreateMLCEngine` is awaited: the early-return guards, the optional model
swap teardown, and the synchronous recording of the Initializing state.
Returns the new state, the decision, and the `STREAM_CHUNK` messages emitted
to stream sinks along the way (none on every path). -/
def initEngineSync (s : OffState) (m : String) : OffState × InitDecision × List StreamMsg :=
  if initGuardReady s m then (s, InitDecision.ready, [])
  else if initGuardIniting s m then (s, InitDecision.initializing, [])
  else
    let s1 := if initNeedsSwap s m then swapTeardown s else s
    ({ s1 with isEngineInitializing := true, currentModelId := m },
     InitDecision.startBuild, [])

/-- Number of underlying engine builds started by a list of decisions. -/
def countBuilds (ds : List InitDecision) : Nat :=
  (ds.filter (fun d => d == InitDecision.startBuild)).length

/-- Truthiness of `activeRequests.get(requestId)?.aborted`
(part_001 135, 197, 289). -/
def streamAbortCheck (s : OffState) (rid : String) : Bool :=
  (lookupAssoc rid s.activeRequests).getD false

/-- `activeRequests.set(requestId, { aborted: false })`. -/
def registerReq (rid : String) (s : OffState) : OffState :=
  { s with activeRequests := setAssoc rid false s.activeRequests }

/-- `activeRequests.delete(requestId)` (the `finally` blocks). -/
def deleteReq (rid : String) (s : OffState) : OffState :=
  { s with activeRequests := eraseKey rid s.activeRequests }

/-- `abortRequest(requestId)` (part_001 318-324): flip the aborted flag of a
live entry. -/
def markAborted (rid : String) (s : OffState) : OffState :=
  { s with activeRequests :=
      s.activeRequests.map (fun q => if q.1 == rid then (q.1, true) else q) }

/-- Background-side guards at the top of `initializeEngine`
(background.ts 125-136): already-ready and already-initializing callers are
answered without contacting the offscreen document. -/
structure BgState where
  offscreenEngineReady : Bool
  isEngineInitializing : Bool
deriving DecidableEq, Repr

/-- Decision of the background `initializeEngine` guards. -/
inductive BgInitDecision
  | returnReady
  | returnInitializing
  | proceed
deriving DecidableEq, Repr

/-- The two early returns of `initializeEngine` (background.ts 128-136). -/
def bgInitGuard (bg : BgState) (forceModelId : Option String) : BgInitDecision :=
  if bg.offscreenEngineReady && forceModelId.isNone then BgInitDecision.returnReady
  else if bg.isEngineInitializing && forceModelId.isNone then BgInitDecision.returnInitializing
  else BgInitDecision.proceed

/-- Settlements of the non-streamed completion await in `chatCompletion`
(part_001 117-148): the engine either raises or yields content; the request
may or may not have been aborted while awaiting. -/
inductive NSOutcome
  | completed (content : String) (abortedDuring : Bool)
  | raised (e : String) (abortedDuring : Bool)
deriving DecidableEq, Repr

/-- `chatCompletion` (part_001 117-148).  Returns the state at the await
point, the settled state, and the call result. -/
def chatCompletion (s : OffState) (rid : String) (outcome : NSOutcome) :
    OffState × OffState × Except String String :=
  if !(s.engineLoaded && s.engineReady) then
    (s, s, Except.error "Engine not ready")
  else
    let s1 := registerReq rid s
    match outcome with
    | NSOutcome.raised e ab =>
      let s2 := if ab then markAborted rid s1 else s1
      (s1, deleteReq rid s2, Except.error e)
    | NSOutcome.completed content ab =>
      let s2 := if ab then markAborted rid s1 else s1
      let result :=
        if streamAbortCheck s2 rid then Except.error "Request aborted"
        else Except.ok content
      (s1, deleteReq rid s2, result)

/-- Terminal error text of the stall watchdog (part_001 208-211). -/
def stallErrorText : String := "Stream stalled - no chunk received for 30000ms"

/-- Settlements of the streamed completion in `chatCompletionStream`
(part_001 166-245). -/
inductive StreamOutcome
  | createFailed (e : String)
  | abortedDuring (deltas : List String)
  | stalled (deltas : List String)
  | finished (deltas : List String)
deriving DecidableEq, Repr

/-- `chatCompletionStream` (part_001 166-245).  Returns the state at the
await point, the settled state, and the `STREAM_CHUNK` messages emitted. -/
def chatCompletionStream (s : OffState) (rid : String) (outcome : StreamOutcome) :
    OffState × OffState × List StreamMsg :=
  if !(s.engineLoaded && s.engineReady) then
    (s, s, [{ requestId := rid, chunk := none, done := false, error := some "Engine not ready" }])
  else
    let s1 := registerReq rid s
    match outcome with
    | StreamOutcome.createFailed e =>
      (s1, deleteReq rid s1, [{ requestId := rid, chunk := none, done := true, error := some e }])
    | StreamOutcome.abortedDuring deltas =>
      let s2 := markAborted rid s1
      (s1, deleteReq rid s2,
       deltas.map (fun d => { requestId := rid, chunk := some d, done := false, error := none }) ++
         [{ requestId := rid, chunk := none, done := true, error := some "Request aborted" }])
    | StreamOutcome.stalled deltas =>
      (s1, deleteReq rid s1,
       deltas.map (fun d => { requestId := rid, chunk := some d, done := false, error := none }) ++
         [{ requestId := rid, chunk := none, done := true, error := some stallErrorText }])
    | StreamOutcome.finished deltas =>
      (s1, deleteReq rid s1,
       deltas.map (fun d => { requestId := rid, chunk := some d, done := false, error := none }) ++
         [{ requestId := rid, chunk := none, done := true, error := none }])

/-- Settlements of the streamed summary in `summarizePage`
(part_001 249-314). -/
inductive SummOutcome
  | createFailed (e : String)
  | abortedDuring (deltas : List String)
  | stalled (deltas : List String)
  | finished (deltas : List String)
deriving DecidableEq, Repr

/-- `summarizePage` (part_001 249-314): registers `summarize_<now>`, streams
deltas into the summary, and deletes the entry in `finally`; abort and stall
raise. -/
def summarizePage (s : OffState) (now : Nat) (outcome : SummOutcome) :
    OffState × OffState × Except String String :=
  if !(s.engineLoaded && s.engineReady) then
    (s, s, Except.error "Engine not ready")
  else
    let requestId := "summarize_" ++ toString now
    let s1 := registerReq requestId s
    match outcome with
    | SummOutcome.createFailed e => (s1, deleteReq requestId s1, Except.error e)
    | SummOutcome.abortedDuring _ => (s1, deleteReq requestId s1, Except.error "Request aborted")
    | SummOutcome.stalled _ => (s1, deleteReq requestId s1, Except.error stallErrorText)
    | SummOutcome.finished deltas =>
      (s1, deleteReq requestId s1, Except.ok (deltas.foldl (fun a d => a ++ d) ""))

-- ==================== concrete fixtures used in the theorems ====================

/-- Initial background state: empty queue, empty stores, idle, engine ready. -/
def freshQueueState : BgQueueState :=
  { summarizationQueue := [], pendingPages := [], summaryCache := [],
    isSummarizing := false, offscreenEngineReady := true }

/-- Example tab with a cached summary, used in the three-tab relevance test. -/
def exTab1 : TabContentInfo :=
  { title := "T1", url := "u1", content := "c1", cachedSummary := some "s1", hasCachedSummary := true }

/-- Second example tab with a cached summary. -/
def exTab2 : TabContentInfo :=
  { title := "T2", url := "u2", content := "c2", cachedSummary := some "s2", hasCachedSummary := true }

/-- Third example tab with a cached summary. -/
def exTab3 : TabContentInfo :=
  { title := "T3", url := "u3", content := "c3", cachedSummary := some "s3", hasCachedSummary := true }

/-- Engine oracle for the three-tab test: per-tab answers are
"No relevant information", "N/A" and "Paris is the capital", each delivered
through the strict SUFFICIENT/ANSWER format. -/
def exOracle : ChatOracle := fun ms =>
  if ms = summaryQueryMsgs exTab1 "q" then
    Except.ok "SUFFICIENT: yes\nANSWER: No relevant information"
  else if ms = summaryQueryMsgs exTab2 "q" then
    Except.ok "SUFFICIENT: yes\nANSWER: N/A"
  else
    Except.ok "SUFFICIENT: yes\nANSWER: Paris is the capital"

-- ==================== general lemmas about the keyed stores ====================

set_option maxRecDepth 10000

theorem lookupAssoc_setAssoc_self {β : Type} (k : String) (v : β) (l : List (String × β)) :
    lookupAssoc k (setAssoc k v l) = some v := by
  simp [lookupAssoc, setAssoc]

theorem lookupAssoc_eraseKey_self {β : Type} (k : String) (l : List (String × β)) :
    lookupAssoc k (eraseKey k l) = none := by
  induction l with
  | nil => rfl
  | cons q t ih =>
    simp only [eraseKey, List.filter_cons] at ih ⊢
    by_cases h : q.1 = k
    · simpa [h] using ih
    · simpa [h, lookupAssoc] using ih

theorem lookupAssoc_eraseKey_none {β : Type} (u k : String) (l : List (String × β))
    (h : lookupAssoc u l = none) : lookupAssoc u (eraseKey k l) = none := by
  induction l with
  | nil => rfl
  | cons q t ih =>
    have hq : ¬ q.1 = u := by
      intro hq
      simp [lookupAssoc, hq] at h
    have ht : lookupAssoc u t = none := by
      simpa [lookupAssoc, hq] using h
    by_cases hk : q.1 = k
    · simpa [eraseKey, List.filter_cons, hk] using ih ht
    · simpa [eraseKey, List.filter_cons, hk, lookupAssoc, hq] using ih ht

theorem lookupAssoc_mem {β : Type} (k : String) (v : β) :
    ∀ l : List (String × β), lookupAssoc k l = some v → (k, v) ∈ l := by
  intro l
  induction l with
  | nil => intro h; simp [lookupAssoc] at h
  | cons q t ih =>
    intro h
    obtain ⟨a, b⟩ := q
    simp only [lookupAssoc] at h
    by_cases hq : a = k
    · subst hq
      simp at h
      subst h
      exact List.mem_cons_self _ _
    · simp [hq] at h
      exact List.mem_cons_of_mem _ (ih h)

-- ==================== lemmas about the summarization consumer loop ====================

theorem processQueueItems_pending_none_mono (orac : SummarizeOracle) (now : Nat) :
    ∀ (urls : List String) (s : BgQueueState) (u : String),
      lookupAssoc u s.pendingPages = none →
      lookupAssoc u (processQueueItems orac now urls s).1.pendingPages = none := by
  intro urls
  induction urls with
  | nil => intro s u h; simpa [processQueueItems] using h
  | cons url rest ih =>
    intro s u h
    cases hpd : lookupAssoc url s.pendingPages with
    | none => simpa [processQueueItems, hpd] using ih s u h
    | some pageData =>
      cases hcs : lookupAssoc url s.summaryCache with
      | some e =>
        simp only [processQueueItems, hpd, hcs]
        exact ih _ u (lookupAssoc_eraseKey_none u url _ h)
      | none =>
        cases horc : orac pageData.url pageData.title (pageData.content.take maxContentLength) with
        | withSummary sum =>
          simp only [processQueueItems, hpd, hcs, horc]
          exact ih _ u (lookupAssoc_eraseKey_none u url _ h)
        | withError e =>
          simp only [processQueueItems, hpd, hcs, horc]
          exact ih _ u (lookupAssoc_eraseKey_none u url _ h)
        | unexpected =>
          simp only [processQueueItems, hpd, hcs, horc]
          exact ih _ u (lookupAssoc_eraseKey_none u url _ h)
        | raised e =>
          simp only [processQueueItems, hpd, hcs, horc]
          exact ih _ u (lookupAssoc_eraseKey_none u url _ h)

theorem processQueueItems_pending_drained (orac : SummarizeOracle) (now : Nat) :
    ∀ (urls : List String) (s : BgQueueState) (u : String),
      u ∈ urls →
      lookupAssoc u (processQueueItems orac now urls s).1.pendingPages = none := by
  intro urls
  induction urls with
  | nil => intro s u h; exact absurd h (List.not_mem_nil u)
  | cons url rest ih =>
    intro s u hu
    rcases List.mem_cons.mp hu with heq | hrest
    · subst heq
      cases hpd : lookupAssoc u s.pendingPages with
      | none =>
        simpa [processQueueItems, hpd] using
          processQueueItems_pending_none_mono orac now rest s u hpd
      | some pageData =>
        cases hcs : lookupAssoc u s.summaryCache with
        | some e =>
          simp only [processQueueItems, hpd, hcs]
          exact processQueueItems_pending_none_mono orac now rest _ u
            (lookupAssoc_eraseKey_self u _)
        | none =>
          cases horc : orac pageData.url pageData.title (pageData.content.take maxContentLength) with
          | withSummary sum =>
            simp only [processQueueItems, hpd, hcs, horc]
            exact processQueueItems_pending_none_mono orac now rest _ u
              (lookupAssoc_eraseKey_self u _)
          | withError e =>
            simp only [processQueueItems, hpd, hcs, horc]
            exact processQueueItems_pending_none_mono orac now rest _ u
              (lookupAssoc_eraseKey_self u _)
          | unexpected =>
            simp only [processQueueItems, hpd, hcs, horc]
            exact processQueueItems_pending_none_mono orac now rest _ u
              (lookupAssoc_eraseKey_self u _)
          | raised e =>
            simp only [processQueueItems, hpd, hcs, horc]
            exact processQueueItems_pending_none_mono orac now rest _ u
              (lookupAssoc_eraseKey_self u _)
    · cases hpd : lookupAssoc url s.pendingPages with
      | none => simpa [processQueueItems, hpd] using ih s u hrest
      | some pageData =>
        cases hcs : lookupAssoc url s.summaryCache with
        | some e =>
          simp only [processQueueItems, hpd, hcs]
          exact ih _ u hrest
        | none =>
          cases horc : orac pageData.url pageData.title (pageData.content.take maxContentLength) with
          | withSummary sum =>
            simp only [processQueueItems, hpd, hcs, horc]
            exact ih _ u hrest
          | withError e =>
            simp only [processQueueItems, hpd, hcs, horc]
            exact ih _ u hrest
          | unexpected =>
            simp only [processQueueItems, hpd, hcs, horc]
            exact ih _ u hrest
          | raised e =>
            simp only [processQueueItems, hpd, hcs, horc]
            exact ih _ u hrest

theorem processQueueItems_queue_flag_const (orac : SummarizeOracle) (now : Nat) :
    ∀ (urls : List String) (s : BgQueueState),
      (processQueueItems orac now urls s).1.summarizationQueue = s.summarizationQueue ∧
      (processQueueItems orac now urls s).1.isSummarizing = s.isSummarizing := by
  intro urls
  induction urls with
  | nil => intro s; exact ⟨rfl, rfl⟩
  | cons url rest ih =>
    intro s
    cases hpd : lookupAssoc url s.pendingPages with
    | none => simpa [processQueueItems, hpd] using ih s
    | some pageData =>
      cases hcs : lookupAssoc url s.summaryCache with
      | some e => simpa [processQueueItems, hpd, hcs] using ih _
      | none =>
        cases horc : orac pageData.url pageData.title (pageData.content.take maxContentLength) with
        | withSummary sum => simpa [processQueueItems, hpd, hcs, horc] using ih _
        | withError e => simpa [processQueueItems, hpd, hcs, horc] using ih _
        | unexpected => simpa [processQueueItems, hpd, hcs, horc] using ih _
        | raised e => simpa [processQueueItems, hpd, hcs, horc] using ih _

-- ==================== lemmas about the streaming multiplexer ====================

theorem runMux_state_append (l1 : List MuxEvent) :
    ∀ (l2 : List MuxEvent) (s : MuxState),
      (runMux s (l1 ++ l2)).1 = (runMux (runMux s l1).1 l2).1 := by
  induction l1 with
  | nil => intro l2 s; rfl
  | cons e es ih => intro l2 s; simp [runMux, ih]

theorem runMux_chunks_then_done (rid : String) (pid : Nat) (closed0 : List Nat) :
    ∀ n : Nat,
      (runMux { ports := [(rid, pid)], closed := closed0 }
        (List.replicate n (MuxEvent.chunkMsg rid (some "x") false none) ++
          [MuxEvent.chunkMsg rid none true none])).1 =
      { ports := [], closed := closed0 } := by
  intro n
  induction n with
  | zero =>
    simp [runMux, muxStep, lookupAssoc, eraseKey]
  | succ k ih =>
    simpa [List.replicate_succ, runMux, muxStep, lookupAssoc] using ih

theorem runMux_block_resets (rid : String) (pid n : Nat) (closed0 : List Nat) :
    (runMux { ports := [], closed := closed0 } (mkStreamBlock rid pid n)).1 =
      { ports := [], closed := closed0 } := by
  simpa [mkStreamBlock, runMux, muxStep, setAssoc] using
    runMux_chunks_then_done rid pid closed0 n

theorem runMux_blocks_no_leak :
    ∀ (bs : List (String × Nat × Nat)) (closed0 : List Nat),
      (runMux { ports := [], closed := closed0 } (mkBlocks bs)).1 =
        { ports := [], closed := closed0 } := by
  intro bs
  induction bs with
  | nil => intro closed0; rfl
  | cons b t ih =>
    intro closed0
    have hsplit : mkBlocks (b :: t) = mkStreamBlock b.1 b.2.1 b.2.2 ++ mkBlocks t := by
      simp [mkBlocks]
    rw [hsplit, runMux_state_append, runMux_block_resets]
    exact ih closed0

theorem muxStep_safe (s : MuxState) (e : MuxEvent) (hinv : muxInvariant s)
    (hval : (match e with
             | MuxEvent.streamStart _ pid => !(s.closed.contains pid)
             | _ => true) = true) :
    ((muxStep s e).2.all (fun o =>
      match o with
      | MuxOut.forwardChunk pid _ => !(s.closed.contains pid)
      | MuxOut.abortReq _ => true)) = true ∧
    muxInvariant (muxStep s e).1 := by
  cases e with
  | streamStart rid pid =>
    refine ⟨by simp [muxStep], ?_⟩
    intro q hq
    simp only [muxStep, setAssoc] at hq ⊢
    rcases List.mem_cons.mp hq with heq | hmem
    · subst heq
      simpa using hval
    · exact hinv q (List.mem_of_mem_filter hmem)
  | chunkMsg rid ch done err =>
    cases hlk : lookupAssoc rid s.ports with
    | none =>
      refine ⟨by simp [muxStep, hlk], ?_⟩
      intro q hq
      simp only [muxStep, hlk] at hq ⊢
      exact hinv q hq
    | some pid =>
      have hmem : (rid, pid) ∈ s.ports := lookupAssoc_mem rid pid s.ports hlk
      have hopen : pid ∉ s.closed := hinv (rid, pid) hmem
      by_cases hterm : (done || err.isSome) = true
      · refine ⟨by simp [muxStep, hlk, hterm, hopen], ?_⟩
        intro q hq
        simp only [muxStep, hlk, hterm, if_true, eraseKey] at hq ⊢
        exact hinv q (List.mem_of_mem_filter hq)
      · refine ⟨by simp [muxStep, hlk, hterm, hopen], ?_⟩
        intro q hq
        simp only [muxStep, hlk, hterm, if_false] at hq ⊢
        exact hinv q hq
  | disconnect pid =>
    refine ⟨?_, ?_⟩
    · simp only [muxStep, List.all_eq_true]
      intro o ho
      rcases List.mem_map.mp ho with ⟨q, hq, rfl⟩
      simp
    · intro q hq
      simp only [muxStep] at hq ⊢
      have hq2 : q.2 ≠ pid := by simpa using (List.mem_filter.mp hq).2
      have hmem : q ∈ s.ports := List.mem_of_mem_filter hq
      have hno := hinv q hmem
      intro hcon
      rcases List.mem_cons.mp hcon with h1 | h2
      · exact hq2 h1
      · exact hno h2

theorem runMux_safe :
    ∀ (evs : List MuxEvent) (s : MuxState),
      muxInvariant s → validEventsB s evs = true →
      noClosedForwardB s evs = true ∧ muxInvariant (runMux s evs).1 := by
  intro evs
  induction evs with
  | nil => intro s hinv _; exact ⟨rfl, hinv⟩
  | cons e es ih =>
    intro s hinv hval
    simp only [validEventsB, Bool.and_eq_true] at hval
    obtain ⟨hv1, hv2⟩ := hval
    obtain ⟨hsafe, hinv2⟩ := muxStep_safe s e hinv hv1
    obtain ⟨hrest, hinvfin⟩ := ih (muxStep s e).1 hinv2 hv2
    refine ⟨?_, ?_⟩
    · simp only [noClosedForwardB, Bool.and_eq_true]
      exact ⟨hsafe, hrest⟩
    · simpa [runMux] using hinvfin

-- ==================== claim theorems ====================

/-- C1: evaluation of the code at the failing input.  With a stream session
req1 active under model A, the part of `initEngine("B")` that runs before the
new build starts tears the engine down, empties the active-request table, and
emits no message to any stream sink; afterwards the truthiness check
`activeRequests.get("req1")?.aborted` used by the in-flight stream evaluates
to false, so the session is not sent any terminal error or cancellation
before the build of model B begins. -/
theorem initEngine_swap_drops_abort_marks :
    initEngineSync
        { engineLoaded := true, isEngineInitializing := false, engineReady := true,
          currentModelId := "A", activeRequests := [("req1", false)] } "B" =
      ({ engineLoaded := false, isEngineInitializing := true, engineReady := false,
         currentModelId := "B", activeRequests := [] },
       InitDecision.startBuild, []) ∧
    streamAbortCheck
        { engineLoaded := false, isEngineInitializing := true, engineReady := false,
          currentModelId := "B", activeRequests := [] } "req1" = false := by
  decide

/-- C2: a second `initialize(m)` issued while the first is still Initializing
starts no second build.  The background guard answers `initializing` outright
when its flag is set, and in the offscreen `initEngine` a first call that
decided to build has recorded `isEngineInitializing` and `currentModelId`
synchronously, so the second call returns `initializing`, leaves the state
unchanged, and the two calls perform exactly one build. -/
theorem initEngine_single_build_on_concurrent_init :
    (∀ bg : BgState, bg.offscreenEngineReady = false → bg.isEngineInitializing = true →
      bgInitGuard bg none = BgInitDecision.returnInitializing) ∧
    (∀ (s : OffState) (m : String),
      (initEngineSync s m).2.1 = InitDecision.startBuild →
      initEngineSync (initEngineSync s m).1 m =
        ((initEngineSync s m).1, InitDecision.initializing, []) ∧
      countBuilds [(initEngineSync s m).2.1, (initEngineSync (initEngineSync s m).1 m).2.1] = 1) := by
  constructor
  · intro bg h1 h2
    simp [bgInitGuard, h1, h2]
  · intro s m h
    cases hload : s.engineLoaded <;> cases hready : s.engineReady <;>
      cases hinit : s.isEngineInitializing <;> by_cases hcur : s.currentModelId = m <;>
      simp_all [initEngineSync, initGuardReady, initGuardIniting, initNeedsSwap,
        swapTeardown, countBuilds]

/-- Witness for C2 at concrete inputs: a busy background guard, and a fresh
offscreen state receiving two back-to-back builds of model M. -/
theorem initEngine_single_build_on_concurrent_init_w :
    bgInitGuard { offscreenEngineReady := false, isEngineInitializing := true } none =
      BgInitDecision.returnInitializing ∧
    (initEngineSync
        (initEngineSync
          { engineLoaded := false, isEngineInitializing := false, engineReady := false,
            currentModelId := "", activeRequests := [] } "M").1 "M" =
      ((initEngineSync
          { engineLoaded := false, isEngineInitializing := false, engineReady := false,
            currentModelId := "", activeRequests := [] } "M").1,
        InitDecision.initializing, []) ∧
      countBuilds
        [(initEngineSync
            { engineLoaded := false, isEngineInitializing := false, engineReady := false,
              currentModelId := "", activeRequests := [] } "M").2.1,
         (initEngineSync
            (initEngineSync
              { engineLoaded := false, isEngineInitializing := false, engineReady := false,
                currentModelId := "", activeRequests := [] } "M").1 "M").2.1] = 1) :=
  ⟨initEngine_single_build_on_concurrent_init.1
      { offscreenEngineReady := false, isEngineInitializing := true } rfl rfl,
   initEngine_single_build_on_concurrent_init.2
      { engineLoaded := false, isEngineInitializing := false, engineReady := false,
        currentModelId := "", activeRequests := [] } "M" (by decide)⟩

/-- C3 counterexample: on the input "ANSWER: Paris", which has no
`sufficient` token, the parser does not return the whole reply verbatim as a
sufficient answer; it extracts the answer capture and reports
sufficient=false. -/
theorem parseSummaryResponse_fallback_cex :
    parseSummaryResponse "ANSWER: Paris" = { sufficient := false, answer := "Paris" } ∧
    ¬ parseSummaryResponse "ANSWER: Paris" =
        { sufficient := true, answer := "ANSWER: Paris" } := by
  decide

/-- C3 (amended): the two specification examples hold, and the
whole-reply-verbatim fallback (modulo trimming) applies exactly when neither
a `sufficient` token nor an `answer:` token is found; when only the
`sufficient` token is found the parser returns its flag with an empty
answer. -/
theorem parseSummaryResponse_tokens_and_fallback :
    parseSummaryResponse "**Sufficient**: yes\n**Answer**: Paris" =
      { sufficient := true, answer := "Paris" } ∧
    parseSummaryResponse "Paris is the capital." =
      { sufficient := true, answer := "Paris is the capital." } ∧
    (∀ response : String,
      findSuff (response.data.map Char.toLower) = none →
      findAns response.data = none →
      parseSummaryResponse response =
        { sufficient := true, answer := String.mk (jsTrimList response.data) }) ∧
    (∀ (response : String) (b : Bool),
      findSuff (response.data.map Char.toLower) = some b →
      findAns response.data = none →
      parseSummaryResponse response = { sufficient := b, answer := "" }) := by
  refine ⟨by decide, by decide, ?_, ?_⟩
  · intro response h1 h2
    simp [parseSummaryResponse, h1, h2]
  · intro response b h1 h2
    simp [parseSummaryResponse, h1, h2]

/-- Witness for C3 at the token-free input "hello". -/
theorem parseSummaryResponse_tokens_and_fallback_w :
    parseSummaryResponse "hello" =
      { sufficient := true, answer := String.mk (jsTrimList "hello".data) } :=
  parseSummaryResponse_tokens_and_fallback.2.2.1 "hello" (by decide) (by decide)

/-- C4 counterexample: on the direct (no-cached-summary) path an answer of
"N/A" is marked relevant, contradicting the claim that every processing path
marks a tab irrelevant when its answer equals "n/a". -/
theorem phase1_direct_path_na_relevant_cex :
    ((phase1CompressTab (fun _ => Except.ok "N/A")
        { title := "T", url := "u", content := "c", cachedSummary := none, hasCachedSummary := false }
        "q").1).compressed = "N/A" ∧
    ((phase1CompressTab (fun _ => Except.ok "N/A")
        { title := "T", url := "u", content := "c", cachedSummary := none, hasCachedSummary := false }
        "q").1).isRelevant = true := by
  decide

/-- C4 (amended): the relevance rules per path.  On the direct path
(no cached summary) and on the fallback path (cached summary present but the
parse reports insufficient, background.ts 357-359) only the
"no relevant information" containment test applies; on the cached-summary
sufficient path the full test (containment, "n/a" equality, emptiness)
applies; an engine failure on any path — the direct call, the cached-summary
call, or the fallback call (background.ts 361-365 and 372-376) — yields the
synthetic answer marked irrelevant; and on the three-tab example (answers
"No relevant information", "N/A", "Paris is the capital", via cached
summaries) exactly one tab remains relevant and the aggregated system
message carries its exact text. -/
theorem multiTab_relevance_rules :
    (∀ (o : ChatOracle) (tab : TabContentInfo) (q ans : String),
      hasUsableCachedSummary tab = false →
      o (answerFromContentMsgs tab.content q) = Except.ok ans →
      (phase1CompressTab o tab q).1 =
        { title := tab.title, url := tab.url, compressed := ans,
          isRelevant := relevantCheckContains ans }) ∧
    (∀ (o : ChatOracle) (tab : TabContentInfo) (q resp : String),
      hasUsableCachedSummary tab = true →
      o (summaryQueryMsgs tab q) = Except.ok resp →
      (parseSummaryResponse resp).sufficient = true →
      (phase1CompressTab o tab q).1 =
        { title := tab.title, url := tab.url, compressed := (parseSummaryResponse resp).answer,
          isRelevant := relevantCheckFull (parseSummaryResponse resp).answer }) ∧
    (∀ (o : ChatOracle) (tab : TabContentInfo) (q resp ans : String),
      hasUsableCachedSummary tab = true →
      o (summaryQueryMsgs tab q) = Except.ok resp →
      (parseSummaryResponse resp).sufficient = false →
      o (answerFromContentMsgs tab.content q) = Except.ok ans →
      (phase1CompressTab o tab q).1 =
        { title := tab.title, url := tab.url, compressed := ans,
          isRelevant := relevantCheckContains ans }) ∧
    (∀ (o : ChatOracle) (tab : TabContentInfo) (q e : String),
      hasUsableCachedSummary tab = false →
      o (answerFromContentMsgs tab.content q) = Except.error e →
      (phase1CompressTab o tab q).1 =
        { title := tab.title, url := tab.url, compressed := "Error processing this tab",
          isRelevant := false }) ∧
    (∀ (o : ChatOracle) (tab : TabContentInfo) (q e : String),
      hasUsableCachedSummary tab = true →
      o (summaryQueryMsgs tab q) = Except.error e →
      (phase1CompressTab o tab q).1 =
        { title := tab.title, url := tab.url, compressed := "Error processing this tab",
          isRelevant := false }) ∧
    (∀ (o : ChatOracle) (tab : TabContentInfo) (q resp e : String),
      hasUsableCachedSummary tab = true →
      o (summaryQueryMsgs tab q) = Except.ok resp →
      (parseSummaryResponse resp).sufficient = false →
      o (answerFromContentMsgs tab.content q) = Except.error e →
      (phase1CompressTab o tab q).1 =
        { title := tab.title, url := tab.url, compressed := "Error processing this tab",
          isRelevant := false }) ∧
    ((([exTab1, exTab2, exTab3].map (fun t => (phase1CompressTab exOracle t "q").1)).filter
        (fun t => t.isRelevant)).length = 1 ∧
      (processMultiTabQuery exOracle [exTab1, exTab2, exTab3] "q").1.finalMessages = some
        [ { role := "system",
            content := "You are a helpful assistant. The user has 3 browser tabs open. Below is the relevant information extracted from 1 relevant tabs:\n\n=== Tab 1: T3 ===\nURL: u3\nRelevant Information: Paris is the capital\n\n\nPlease provide a comprehensive answer." },
          { role := "user", content := "q" } ]) := by
  refine ⟨?_, ?_, ?_, ?_, ?_, ?_, by decide, by decide⟩
  · intro o tab q ans h1 h2
    simp [phase1CompressTab, h1, h2]
  · intro o tab q resp h1 h2 h3
    simp [phase1CompressTab, h1, h2, h3]
  · intro o tab q resp ans h1 h2 h3 h4
    simp [phase1CompressTab, h1, h2, h3, h4]
  · intro o tab q e h1 h2
    simp [phase1CompressTab, h1, h2]
  · intro o tab q e h1 h2
    simp [phase1CompressTab, h1, h2]
  · intro o tab q resp e h1 h2 h3 h4
    simp [phase1CompressTab, h1, h2, h3, h4]

/-- Witness for C4: the direct-path rule at a concrete tab and oracle, and
the fallback-path rule at a concrete tab whose cached-summary reply parses as
insufficient. -/
theorem multiTab_relevance_rules_w :
    (phase1CompressTab (fun _ => Except.ok "hello")
        { title := "T", url := "u", content := "c", cachedSummary := none, hasCachedSummary := false }
        "q").1 =
      { title := "T", url := "u", compressed := "hello",
        isRelevant := relevantCheckContains "hello" } ∧
    (phase1CompressTab
        (fun ms => if ms = summaryQueryMsgs exTab1 "q" then
            Except.ok "SUFFICIENT: no\nANSWER: N/A"
          else Except.ok "hello")
        exTab1 "q").1 =
      { title := exTab1.title, url := exTab1.url, compressed := "hello",
        isRelevant := relevantCheckContains "hello" } :=
  ⟨multiTab_relevance_rules.1 (fun _ => Except.ok "hello")
      { title := "T", url := "u", content := "c", cachedSummary := none, hasCachedSummary := false }
      "q" "hello" (by decide) rfl,
   multiTab_relevance_rules.2.2.1
      (fun ms => if ms = summaryQueryMsgs exTab1 "q" then
          Except.ok "SUFFICIENT: no\nANSWER: N/A"
        else Except.ok "hello")
      exTab1 "q" "SUFFICIENT: no\nANSWER: N/A" "hello"
      (by decide) rfl (by decide) rfl⟩

/-- C5: the consumer loop is fail-closed.  For every oracle behaviour,
including errors, malformed responses and raised exceptions, a run of
`processSummarizationQueue` from an idle, engine-ready state finishes with
the running flag cleared, the queue fully drained, and no pending page left
for any queued URL. -/
theorem summarizationQueue_fail_closed :
    ∀ (orac : SummarizeOracle) (now : Nat) (s : BgQueueState),
      s.isSummarizing = false → s.offscreenEngineReady = true →
      (processSummarizationQueue orac now s).1.isSummarizing = false ∧
      (processSummarizationQueue orac now s).1.summarizationQueue = [] ∧
      ∀ url ∈ s.summarizationQueue,
        lookupAssoc url (processSummarizationQueue orac now s).1.pendingPages = none := by
  intro orac now s h1 h2
  cases hq : s.summarizationQueue with
  | nil =>
    refine ⟨?_, ?_, ?_⟩ <;> simp [processSummarizationQueue, h1, h2, hq]
  | cons u rest =>
    have hne : s.summarizationQueue.isEmpty = false := by simp [hq]
    refine ⟨?_, ?_, ?_⟩
    · simp [processSummarizationQueue, h1, h2, hne]
    · simp only [processSummarizationQueue, h1, h2, hne]
      simp [(processQueueItems_queue_flag_const orac now _ _).1]
    · intro url hu
      simp only [processSummarizationQueue, h1, h2, hne]
      simp only [Bool.false_or, Bool.not_true, Bool.or_false]
      exact processQueueItems_pending_drained orac now s.summarizationQueue _ url
        (by rw [hq]; exact hu)

/-- Witness for C5: the engine call for u1 raises, u2 succeeds; the pending
page of the failing URL is removed and the queue drains completely. -/
theorem summarizationQueue_fail_closed_w :
    (processSummarizationQueue
        (fun u _ _ => if u = "u1" then SummarizeResp.raised "boom" else SummarizeResp.withSummary "S") 0
        { summarizationQueue := ["u1", "u2"],
          pendingPages :=
            [("u1", { url := "u1", title := "t1", content := "c1", timestamp := 0 }),
             ("u2", { url := "u2", title := "t2", content := "c2", timestamp := 0 })],
          summaryCache := [], isSummarizing := false, offscreenEngineReady := true }).1.isSummarizing
      = false ∧
    (processSummarizationQueue
        (fun u _ _ => if u = "u1" then SummarizeResp.raised "boom" else SummarizeResp.withSummary "S") 0
        { summarizationQueue := ["u1", "u2"],
          pendingPages :=
            [("u1", { url := "u1", title := "t1", content := "c1", timestamp := 0 }),
             ("u2", { url := "u2", title := "t2", content := "c2", timestamp := 0 })],
          summaryCache := [], isSummarizing := false, offscreenEngineReady := true }).1.summarizationQueue
      = [] ∧
    lookupAssoc "u1"
      (processSummarizationQueue
        (fun u _ _ => if u = "u1" then SummarizeResp.raised "boom" else SummarizeResp.withSummary "S") 0
        { summarizationQueue := ["u1", "u2"],
          pendingPages :=
            [("u1", { url := "u1", title := "t1", content := "c1", timestamp := 0 }),
             ("u2", { url := "u2", title := "t2", content := "c2", timestamp := 0 })],
          summaryCache := [], isSummarizing := false, offscreenEngineReady := true }).1.pendingPages
      = none :=
  ⟨(summarizationQueue_fail_closed
      (fun u _ _ => if u = "u1" then SummarizeResp.raised "boom" else SummarizeResp.withSummary "S") 0
      { summarizationQueue := ["u1", "u2"],
        pendingPages :=
          [("u1", { url := "u1", title := "t1", content := "c1", timestamp := 0 }),
           ("u2", { url := "u2", title := "t2", content := "c2", timestamp := 0 })],
        summaryCache := [], isSummarizing := false, offscreenEngineReady := true } rfl rfl).1,
   (summarizationQueue_fail_closed
      (fun u _ _ => if u = "u1" then SummarizeResp.raised "boom" else SummarizeResp.withSummary "S") 0
      { summarizationQueue := ["u1", "u2"],
        pendingPages :=
          [("u1", { url := "u1", title := "t1", content := "c1", timestamp := 0 }),
           ("u2", { url := "u2", title := "t2", content := "c2", timestamp := 0 })],
        summaryCache := [], isSummarizing := false, offscreenEngineReady := true } rfl rfl).2.1,
   (summarizationQueue_fail_closed
      (fun u _ _ => if u = "u1" then SummarizeResp.raised "boom" else SummarizeResp.withSummary "S") 0
      { summarizationQueue := ["u1", "u2"],
        pendingPages :=
          [("u1", { url := "u1", title := "t1", content := "c1", timestamp := 0 }),
           ("u2", { url := "u2", title := "t2", content := "c2", timestamp := 0 })],
        summaryCache := [], isSummarizing := false, offscreenEngineReady := true } rfl rfl).2.2
     "u1" (by simp)⟩

/-- C6: page-observed notifications are idempotent per URL.  A cached summary
suppresses the notification entirely; a URL already queued is not
re-enqueued; two notifications before the first summary completes, followed
by the consumer run, make exactly one engine call and leave exactly one
cache entry and no pending page; and after a completed first round the
second notification is a strict no-op. -/
theorem notifyPageObserved_dedup :
    (∀ (now : Nat) (s : BgQueueState) (url t c : String) (e : SummaryData),
      lookupAssoc url s.summaryCache = some e →
      queuePageForSummarization now s url t c = s) ∧
    (∀ (now : Nat) (s : BgQueueState) (url t c : String),
      lookupAssoc url s.summaryCache = none →
      s.summarizationQueue.contains url = true →
      (queuePageForSummarization now s url t c).summarizationQueue = s.summarizationQueue) ∧
    (∀ (url t1 c1 t2 c2 : String) (now : Nat) (orac : SummarizeOracle) (sum : String),
      orac url t2 (c2.take maxContentLength) = SummarizeResp.withSummary sum →
      (processSummarizationQueue orac now
          (queuePageForSummarization now
            (queuePageForSummarization now freshQueueState url t1 c1) url t2 c2)).2 = [url] ∧
      countKey url
        (processSummarizationQueue orac now
          (queuePageForSummarization now
            (queuePageForSummarization now freshQueueState url t1 c1) url t2 c2)).1.summaryCache = 1 ∧
      lookupAssoc url
        (processSummarizationQueue orac now
          (queuePageForSummarization now
            (queuePageForSummarization now freshQueueState url t1 c1) url t2 c2)).1.pendingPages = none) ∧
    (∀ (url t1 c1 t2 c2 : String) (now : Nat) (orac : SummarizeOracle) (sum1 : String),
      orac url t1 (c1.take maxContentLength) = SummarizeResp.withSummary sum1 →
      queuePageForSummarization now
          (processSummarizationQueue orac now
            (queuePageForSummarization now freshQueueState url t1 c1)).1 url t2 c2 =
        (processSummarizationQueue orac now
          (queuePageForSummarization now freshQueueState url t1 c1)).1 ∧
      (processSummarizationQueue orac now
          (queuePageForSummarization now freshQueueState url t1 c1)).2 = [url] ∧
      countKey url
        (processSummarizationQueue orac now
          (queuePageForSummarization now freshQueueState url t1 c1)).1.summaryCache = 1) := by
  refine ⟨?_, ?_, ?_, ?_⟩
  · intro now s url t c e h
    simp [queuePageForSummarization, h]
  · intro now s url t c h1 h2
    have h2m : url ∈ s.summarizationQueue := by simpa using h2
    simp [queuePageForSummarization, h1, h2m]
  · intro url t1 c1 t2 c2 now orac sum h
    simp [queuePageForSummarization, processSummarizationQueue, processQueueItems,
      freshQueueState, h, setAssoc, eraseKey, lookupAssoc, countKey]
  · intro url t1 c1 t2 c2 now orac sum1 h
    simp [queuePageForSummarization, processSummarizationQueue, processQueueItems,
      freshQueueState, h, setAssoc, eraseKey, lookupAssoc, countKey]

/-- Witness for C6: two notifications for the same URL before processing,
with a succeeding engine; one call, one cache entry, no pending page. -/
theorem notifyPageObserved_dedup_w :
    (processSummarizationQueue (fun _ _ _ => SummarizeResp.withSummary "S") 0
        (queuePageForSummarization 0
          (queuePageForSummarization 0 freshQueueState "u" "t1" "c1") "u" "t2" "c2")).2 = ["u"] ∧
    countKey "u"
      (processSummarizationQueue (fun _ _ _ => SummarizeResp.withSummary "S") 0
        (queuePageForSummarization 0
          (queuePageForSummarization 0 freshQueueState "u" "t1" "c1") "u" "t2" "c2")).1.summaryCache = 1 ∧
    lookupAssoc "u"
      (processSummarizationQueue (fun _ _ _ => SummarizeResp.withSummary "S") 0
        (queuePageForSummarization 0
          (queuePageForSummarization 0 freshQueueState "u" "t1" "c1") "u" "t2" "c2")).1.pendingPages = none :=
  notifyPageObserved_dedup.2.2.1 "u" "t1" "c1" "t2" "c2" 0
    (fun _ _ _ => SummarizeResp.withSummary "S") "S" rfl

/-- C7: the `streamPorts` map gains the entry on stream start, loses it on a
terminal done chunk and on a terminal error chunk (forwarding exactly once to
the bound port), loses every entry of a disconnected port while issuing an
abort request per removed requestId, after any number of completed streams
holds no entries, and on any valid trace never forwards a chunk to a closed
connection. -/
theorem streamPorts_no_leak_no_closed_forward :
    (∀ (s : MuxState) (rid : String) (pid : Nat),
      lookupAssoc rid (muxStep s (MuxEvent.streamStart rid pid)).1.ports = some pid) ∧
    (∀ (s : MuxState) (rid : String) (pid : Nat) (ch : Option String),
      lookupAssoc rid s.ports = some pid →
      (muxStep s (MuxEvent.chunkMsg rid ch true none)).2 = [MuxOut.forwardChunk pid rid] ∧
      lookupAssoc rid (muxStep s (MuxEvent.chunkMsg rid ch true none)).1.ports = none) ∧
    (∀ (s : MuxState) (rid : String) (pid : Nat) (ch : Option String) (e : String),
      lookupAssoc rid s.ports = some pid →
      (muxStep s (MuxEvent.chunkMsg rid ch false (some e))).2 = [MuxOut.forwardChunk pid rid] ∧
      lookupAssoc rid (muxStep s (MuxEvent.chunkMsg rid ch false (some e))).1.ports = none) ∧
    (∀ (s : MuxState) (pid : Nat),
      (muxStep s (MuxEvent.disconnect pid)).2 =
        (s.ports.filter (fun q => q.2 == pid)).map (fun q => MuxOut.abortReq q.1) ∧
      ∀ q ∈ (muxStep s (MuxEvent.disconnect pid)).1.ports, q.2 ≠ pid) ∧
    (∀ bs : List (String × Nat × Nat),
      (runMux { ports := [], closed := [] } (mkBlocks bs)).1.ports = []) ∧
    (∀ (s : MuxState) (evs : List MuxEvent),
      muxInvariant s → validEventsB s evs = true →
      noClosedForwardB s evs = true ∧ muxInvariant (runMux s evs).1) := by
  refine ⟨?_, ?_, ?_, ?_, ?_, fun s evs => runMux_safe evs s⟩
  · intro s rid pid
    simp [muxStep, lookupAssoc_setAssoc_self]
  · intro s rid pid ch hlk
    exact ⟨by simp [muxStep, hlk], by simp [muxStep, hlk, lookupAssoc_eraseKey_self]⟩
  · intro s rid pid ch e hlk
    exact ⟨by simp [muxStep, hlk], by simp [muxStep, hlk, lookupAssoc_eraseKey_self]⟩
  · intro s pid
    refine ⟨rfl, ?_⟩
    intro q hq
    simp only [muxStep] at hq
    simpa using (List.mem_filter.mp hq).2
  · intro bs
    rw [runMux_blocks_no_leak]

/-- Witness for C7: a concrete registration, a concrete terminal done chunk,
two concrete completed streams, and a concrete valid trace ending in a
disconnect. -/
theorem streamPorts_no_leak_no_closed_forward_w :
    lookupAssoc "r" (muxStep { ports := [], closed := [] }
      (MuxEvent.streamStart "r" 1)).1.ports = some 1 ∧
    ((muxStep { ports := [("r", 1)], closed := [] }
        (MuxEvent.chunkMsg "r" none true none)).2 = [MuxOut.forwardChunk 1 "r"] ∧
      lookupAssoc "r" (muxStep { ports := [("r", 1)], closed := [] }
        (MuxEvent.chunkMsg "r" none true none)).1.ports = none) ∧
    (runMux { ports := [], closed := [] } (mkBlocks [("a", 1, 2), ("b", 2, 0)])).1.ports = [] ∧
    (noClosedForwardB { ports := [], closed := [] }
        [MuxEvent.streamStart "a" 1, MuxEvent.chunkMsg "a" (some "x") false none,
         MuxEvent.disconnect 1] = true ∧
      muxInvariant (runMux { ports := [], closed := [] }
        [MuxEvent.streamStart "a" 1, MuxEvent.chunkMsg "a" (some "x") false none,
         MuxEvent.disconnect 1]).1) :=
  ⟨streamPorts_no_leak_no_closed_forward.1 { ports := [], closed := [] } "r" 1,
   streamPorts_no_leak_no_closed_forward.2.1 { ports := [("r", 1)], closed := [] } "r" 1 none rfl,
   streamPorts_no_leak_no_closed_forward.2.2.2.2.1 [("a", 1, 2), ("b", 2, 0)],
   streamPorts_no_leak_no_closed_forward.2.2.2.2.2 { ports := [], closed := [] }
     [MuxEvent.streamStart "a" 1, MuxEvent.chunkMsg "a" (some "x") false none,
      MuxEvent.disconnect 1]
     (fun q hq => absurd hq (List.not_mem_nil q)) rfl⟩

/-- C8 counterexample: for an empty tab list the fast path produces the same
template as the single-tab case with an empty content slot; the system
message contains no notice that no tab is available (neither the phrase
"no tab" nor even the word "available" occurs in it). -/
theorem processMultiTabQuery_empty_tabs_cex :
    processMultiTabQuery (fun _ => Except.error "x") [] "hi" =
      ({ success := true,
         finalMessages := some
           [ { role := "system",
               content := "You are a helpful assistant. Here is the content of the browser tab:\n\n\n\nPlease answer questions about this webpage." },
             { role := "user", content := "hi" } ],
         error := none }, []) ∧
    strIncludes (toLowerStr "You are a helpful assistant. Here is the content of the browser tab:\n\n\n\nPlease answer questions about this webpage.") "no tab" = false ∧
    strIncludes (toLowerStr "You are a helpful assistant. Here is the content of the browser tab:\n\n\n\nPlease answer questions about this webpage.") "available" = false := by
  decide

/-- C8 (amended): for every oracle, question and tab, the 0- and 1-tab fast
paths succeed with no engine call, returning one system message embedding the
raw tab block verbatim (or an empty context for an empty list, with no
notice) followed by the user question. -/
theorem processMultiTabQuery_fast_path :
    (∀ (o : ChatOracle) (q : String),
      processMultiTabQuery o [] q =
        ({ success := true,
           finalMessages := some
             [ { role := "system",
                 content := "You are a helpful assistant. Here is the content of the browser tab:\n\n\n\nPlease answer questions about this webpage." },
               { role := "user", content := q } ],
           error := none }, [])) ∧
    (∀ (o : ChatOracle) (q : String) (tab : TabContentInfo),
      processMultiTabQuery o [tab] q =
        ({ success := true,
           finalMessages := some
             [ { role := "system",
                 content := "You are a helpful assistant. Here is the content of the browser tab:\n\n"
                   ++ tabBlockRaw 0 tab ++ "\n\nPlease answer questions about this webpage." },
               { role := "user", content := q } ],
           error := none }, [])) := by
  exact ⟨fun o q => rfl, fun o q tab => rfl⟩

/-- C9: whenever the engine is not ready, the multi-tab query handler fails
immediately with the "Engine not ready" error, producing no messages and
making no engine call and no Phase-1 processing. -/
theorem handleMultiTabQuery_engine_not_ready :
    ∀ (o : ChatOracle) (tabContents : List TabContentInfo) (userMessage : String),
      handleProcessMultiTabQuery false o tabContents userMessage =
        ({ success := false, finalMessages := none, error := some "Engine not ready" }, []) := by
  intro o tabContents userMessage
  rfl

/-- C10: in each of `chatCompletion`, `chatCompletionStream` and
`summarizePage`, the requestId is registered (unaborted) in the
active-request table at the await point and is absent from the table after
the call settles, whatever the outcome: success, error, stall timeout or
abort. -/
theorem activeRequests_registered_then_cleared :
    ∀ (s : OffState) (rid : String) (now : Nat),
      s.engineLoaded = true → s.engineReady = true →
      (∀ oc : NSOutcome,
        lookupAssoc rid (chatCompletion s rid oc).1.activeRequests = some false ∧
        lookupAssoc rid (chatCompletion s rid oc).2.1.activeRequests = none) ∧
      (∀ oc : StreamOutcome,
        lookupAssoc rid (chatCompletionStream s rid oc).1.activeRequests = some false ∧
        lookupAssoc rid (chatCompletionStream s rid oc).2.1.activeRequests = none) ∧
      (∀ oc : SummOutcome,
        lookupAssoc ("summarize_" ++ toString now)
          (summarizePage s now oc).1.activeRequests = some false ∧
        lookupAssoc ("summarize_" ++ toString now)
          (summarizePage s now oc).2.1.activeRequests = none) := by
  intro s rid now h1 h2
  refine ⟨fun oc => ?_, fun oc => ?_, fun oc => ?_⟩
  · cases oc <;>
      simp [chatCompletion, h1, h2, registerReq, deleteReq, markAborted,
        lookupAssoc_setAssoc_self, lookupAssoc_eraseKey_self]
  · cases oc <;>
      simp [chatCompletionStream, h1, h2, registerReq, deleteReq, markAborted,
        lookupAssoc_setAssoc_self, lookupAssoc_eraseKey_self]
  · cases oc <;>
      simp [summarizePage, h1, h2, registerReq, deleteReq, markAborted,
        lookupAssoc_setAssoc_self, lookupAssoc_eraseKey_self]

/-- Witness for C10: a ready engine and a completed non-streamed call. -/
theorem activeRequests_registered_then_cleared_w :
    lookupAssoc "r"
      (chatCompletion
        { engineLoaded := true, isEngineInitializing := false, engineReady := true,
          currentModelId := "M", activeRequests := [] } "r"
        (NSOutcome.completed "hi" false)).1.activeRequests = some false ∧
    lookupAssoc "r"
      (chatCompletion
        { engineLoaded := true, isEngineInitializing := false, engineReady := true,
          currentModelId := "M", activeRequests := [] } "r"
        (NSOutcome.completed "hi" false)).2.1.activeRequests = none :=
  (activeRequests_registered_then_cleared
      { engineLoaded := true, isEngineInitializing := false, engineReady := true,
        currentModelId := "M", activeRequests := [] } "r" 5 rfl rfl).1
    (NSOutcome.completed "hi" false)
